import Mathlib

/-!
Verification of the cache-aside lookup service in `src/tecdoc-caching-app/app.py`.

The embedding models, in the Flask application:
* Python string primitives used by the app (`str.strip`, `str.upper`,
  `int(...)` parsing) over ASCII;
* `create_cache_key` (line 79), `check_cache` (line 83),
  `save_to_cache` (line 104), `call_apify_api` (line 130) and the
  endpoint handler `get_vehicle_data` (line 173);
* the database and the Apify provider as explicit behaviours
  (connection success/failure, query exception, run outcome), since the
  app treats them as external collaborators.

JSON payloads are an inductive `Json` type; Python truthiness is made
explicit because the app branches on it (`if cached_data:`, `if api_data:`).
-/

namespace TecdocApp

/-- JSON values as stored in the `vehicle_cache` table and returned by the
provider.  Floats are not modelled; the app never inspects payloads. -/
inductive Json where
  | null : Json
  | bool : Bool → Json
  | int  : Int → Json
  | str  : String → Json
  | arr  : List Json → Json
  | obj  : List (String × Json) → Json
deriving Repr

/-- Python truthiness of a JSON value (`bool(x)`): `None`, `False`, `0`,
`""`, `[]`, `{}` are falsy, everything else truthy. -/
def Json.truthy : Json → Bool
  | .null => false
  | .bool b => b
  | .int n => n != 0
  | .str s => s != ""
  | .arr l => !l.isEmpty
  | .obj l => !l.isEmpty

/-- Python truthiness of an optional JSON value (`None` is falsy). -/
def truthyOpt : Option Json → Bool
  | none => false
  | some j => j.truthy

/-- ASCII whitespace stripped by Python `str.strip()` and ignored by
`int(...)`: space, tab, newline, carriage return, vertical tab, form feed. -/
def pyIsSpace (c : Char) : Bool :=
  c.toNat == 32 || c.toNat == 9 || c.toNat == 10 ||
  c.toNat == 13 || c.toNat == 11 || c.toNat == 12

/-- ASCII decimal digit, as accepted by Python `int(...)`. -/
def pyIsDigit (c : Char) : Bool :=
  48 ≤ c.toNat && c.toNat ≤ 57

/-- Python `str.upper()` on a single ASCII character: `a`–`z` map to
`A`–`Z`, everything else is unchanged. -/
def pyUpperChar (c : Char) : Char :=
  if 97 ≤ c.toNat ∧ c.toNat ≤ 122 then Char.ofNat (c.toNat - 32) else c

/-- Python `str.upper()` (ASCII model). -/
def pyUpper (s : String) : String :=
  ⟨s.data.map pyUpperChar⟩

/-- Strip leading and trailing whitespace from a character list. -/
def stripChars (l : List Char) : List Char :=
  ((l.dropWhile pyIsSpace).reverse.dropWhile pyIsSpace).reverse

/-- Python `str.strip()` (ASCII model). -/
def pyStrip (s : String) : String :=
  ⟨stripChars s.data⟩

/-- Run of digits possibly separated by single underscores, as allowed
after the first digit of a Python integer literal (`int("1_000")` parses,
`int("1__0")` and `int("1_")` do not). -/
def digitRun : List Char → Bool
  | [] => true
  | c :: rest =>
    if c = '_' then
      match rest with
      | [] => false
      | c2 :: rest2 => pyIsDigit c2 && digitRun rest2
    else pyIsDigit c && digitRun rest

/-- Nonempty digit sequence: first character a digit, then a `digitRun`. -/
def digitsCore : List Char → Bool
  | [] => false
  | c :: rest => pyIsDigit c && digitRun rest

/-- Optional sign followed by digits. -/
def signedDigits (cs : List Char) : Bool :=
  match cs with
  | [] => false
  | c :: rest => if c = '+' || c = '-' then digitsCore rest else digitsCore cs

/-- Whether `int(s)` succeeds in Python (ASCII model): optional surrounding
whitespace, optional sign, then a nonempty digit run with optional single
underscores between digits. -/
def pyIntLiteral (s : String) : Bool :=
  signedDigits (stripChars s.data)

/-- `create_cache_key(make, model, year)` (app.py line 79):
`f"{make.strip()}_{model.strip()}_{year}".upper()`. -/
def create_cache_key (make model year : String) : String :=
  pyUpper (pyStrip make ++ "_" ++ pyStrip model ++ "_" ++ year)

/-- Behaviour of the database during one `check_cache` call. -/
inductive ReadConn where
  /-- `get_db_connection()` returns `None` (connection failure). -/
  | connFail
  /-- The connection succeeds but `cur.execute`/`fetchone` raises
  (e.g. missing table); `check_cache` has no `except` clause. -/
  | queryRaises
  /-- The query executes; the result is determined by the table contents. -/
  | ok
deriving Repr, DecidableEq

/-- Behaviour of the database during one `save_to_cache` call. -/
inductive WriteConn where
  /-- `get_db_connection()` returns `None`; `save_to_cache` returns silently. -/
  | connFail
  /-- `cur.execute`/`commit` raises; caught by `except` and logged, the
  transaction is not committed. -/
  | queryRaises
  /-- The upsert commits. -/
  | ok
deriving Repr, DecidableEq

/-- The `vehicle_cache` table: cache key to stored JSON payload. -/
def Store := String → Option Json

/-- `check_cache(cache_key)` (app.py line 83).  Returns the stored JSONB if
the row exists, `None` on a missing row, and `None` when the connection
fails.  A query-stage exception propagates (`try`/`finally`, no `except`),
modelled as `Except.error`. -/
def check_cache (rc : ReadConn) (store : Store) (cache_key : String) :
    Except Unit (Option Json) :=
  match rc with
  | .connFail => .ok none
  | .queryRaises => .error ()
  | .ok => .ok (store cache_key)

/-- `save_to_cache(cache_key, data)` (app.py line 104).  Upsert
(`ON CONFLICT ... DO UPDATE`); a connection failure returns silently and a
query exception is caught and logged, so in both cases the table is
unchanged. -/
def save_to_cache (wc : WriteConn) (store : Store) (cache_key : String)
    (data : Json) : Store :=
  match wc with
  | .connFail => store
  | .queryRaises => store
  | .ok => fun k => if k = cache_key then some data else store k

/-- The Apify run object, as far as the app inspects it:
`run.get('defaultDatasetId')`. -/
structure ApifyRun where
  datasetId : Option String
deriving Repr, DecidableEq

/-- Behaviour of the Apify provider during one `call_apify_api` call. -/
inductive ProviderBehavior where
  /-- `ApifyClientError` or any other exception inside the `try` block
  (including a failure while fetching the dataset items). -/
  | raises
  /-- `actor(...).call(...)` returns `run` (`none` models a falsy run);
  `items` are the dataset items that a fetch would return. -/
  | completes (run : Option ApifyRun) (items : List Json)
deriving Repr

/-- `call_apify_api(make, model, year)` (app.py line 130).  Returns `None`
(here `none`) on an exception; the dataset items when the run has a truthy
`defaultDatasetId`; and `[]` when the run is falsy, has no dataset id, or
the dataset is empty. -/
def call_apify_api (pb : ProviderBehavior) : Option (List Json) :=
  match pb with
  | .raises => none
  | .completes run items =>
    match run with
    | none => some []
    | some r =>
      match r.datasetId with
      | none => some []
      | some d => if d = "" then some [] else some items

/-- The HTTP query parameters of `GET /vehicle-data`:
`request.args.get` yields `None` for a missing parameter. -/
structure Request where
  make : Option String
  model : Option String
  year : Option String
deriving Repr, DecidableEq

/-- Environment of one request: database behaviour for the read and the
write, table contents, and provider behaviour. -/
structure World where
  readConn : ReadConn
  store : Store
  writeConn : WriteConn
  provider : ProviderBehavior

/-- The JSON responses `get_vehicle_data` can produce, with their status
codes. -/
inductive HttpResponse where
  /-- 400: `"Faltan parámetros..."` (a parameter missing or empty). -/
  | missingParams
  /-- 400: `"El parámetro year debe ser un número entero válido."`. -/
  | invalidYear
  /-- 200, `source=cache`: the stored payload. -/
  | cacheHit (data : Json)
  /-- 200, `source=apify_api`: fetched items, saved to cache. -/
  | populated (data : List Json)
  /-- 404, `source=apify_api`: provider succeeded with no data. -/
  | emptyResult
  /-- 503, `source=apify_api`: provider call failed. -/
  | providerError
deriving Repr

/-- HTTP status code of each response. -/
def HttpResponse.status : HttpResponse → Nat
  | .missingParams => 400
  | .invalidYear => 400
  | .cacheHit _ => 200
  | .populated _ => 200
  | .emptyResult => 404
  | .providerError => 503

/-- Result of one request: response, table contents afterwards, whether the
provider was invoked, whether the cache store was touched at all. -/
structure ResolveResult where
  response : HttpResponse
  store : Store
  providerCalled : Bool
  storeTouched : Bool

/-- The miss path of `get_vehicle_data` (app.py lines 208–229): call the
provider; `None` → 503 without write; truthy list → save then 200;
falsy (empty) list → 404 without write. -/
def missPath (cache_key : String) (w : World) : ResolveResult :=
  match call_apify_api w.provider with
  | none => ⟨.providerError, w.store, true, true⟩
  | some api_data =>
    if api_data.isEmpty then ⟨.emptyResult, w.store, true, true⟩
    else ⟨.populated api_data,
          save_to_cache w.writeConn w.store cache_key (.arr api_data),
          true, true⟩

/-- `get_vehicle_data()` (app.py line 173): validate parameters, derive the
key, consult the cache, and on a falsy cached value take the miss path.
An uncaught exception from `check_cache` is `Except.error`. -/
def get_vehicle_data (req : Request) (w : World) :
    Except Unit ResolveResult :=
  match req.make, req.model, req.year with
  | some make, some model, some year_str =>
    if make = "" || model = "" || year_str = "" then
      .ok ⟨.missingParams, w.store, false, false⟩
    else if !pyIntLiteral year_str then
      .ok ⟨.invalidYear, w.store, false, false⟩
    else
      let cache_key := create_cache_key make model year_str
      match check_cache w.readConn w.store cache_key with
      | .error e => .error e
      | .ok (some d) =>
        if d.truthy then .ok ⟨.cacheHit d, w.store, false, true⟩
        else .ok (missPath cache_key w)
      | .ok none => .ok (missPath cache_key w)
  | _, _, _ => .ok ⟨.missingParams, w.store, false, false⟩

/-- Structural validity of a request, exactly the checks at app.py
lines 185–192: all three parameters present and truthy, and `int(year)`
succeeds. -/
def requestValid (req : Request) : Bool :=
  match req.make, req.model, req.year with
  | some m, some mo, some y =>
    !(m = "" || mo = "" || y = "") && pyIntLiteral y
  | _, _, _ => false

/-- The key derivation exactly as the specification words it:
uppercase the trimmed make and model, keep the year string verbatim. -/
def derive_spec (make model year : String) : String :=
  pyUpper (pyStrip make) ++ "_" ++ pyUpper (pyStrip model) ++ "_" ++ year

section StringLemmas

/-- Characters below `a` (ASCII 97) are fixed by `str.upper()`. -/
lemma pyUpperChar_eq_self {c : Char} (h : c.toNat < 97) : pyUpperChar c = c := by
  unfold pyUpperChar
  rw [if_neg]
  rintro ⟨h1, -⟩
  omega

lemma toNat_lt_of_pyIsSpace {c : Char} (h : pyIsSpace c = true) : c.toNat < 97 := by
  simp only [pyIsSpace, Bool.or_eq_true, beq_iff_eq] at h
  omega

lemma toNat_lt_of_pyIsDigit {c : Char} (h : pyIsDigit c = true) : c.toNat < 97 := by
  simp only [pyIsDigit, Bool.and_eq_true, decide_eq_true_eq] at h
  omega

lemma underscore_toNat : ('_').toNat = 95 := rfl

lemma digitRun_underscore (rest : List Char) :
    digitRun ('_' :: rest) =
      (match rest with
       | [] => false
       | c2 :: rest2 => pyIsDigit c2 && digitRun rest2) := by
  rw [digitRun.eq_def]
  simp

lemma digitRun_cons {a : Char} (rest : List Char) (ha : a ≠ '_') :
    digitRun (a :: rest) = (pyIsDigit a && digitRun rest) := by
  rw [digitRun.eq_def]
  simp [if_neg ha]

lemma digitRun_chars {cs : List Char} (h : digitRun cs = true) :
    ∀ c ∈ cs, c.toNat < 97 := by
  induction cs with
  | nil => intro c hc; cases hc
  | cons a rest ih =>
    intro c hc
    by_cases ha : a = '_'
    · subst ha
      rw [digitRun_underscore] at h
      cases rest with
      | nil => cases h
      | cons b rest2 =>
        simp only [Bool.and_eq_true] at h
        have hb : b ≠ '_' := by
          intro hb
          rw [hb] at h
          exact absurd h.1 (by decide)
        have hrest : digitRun (b :: rest2) = true := by
          rw [digitRun_cons rest2 hb]
          simp [h.1, h.2]
        rcases List.mem_cons.mp hc with hc1 | hc2
        · subst hc1; simp [underscore_toNat]
        · exact ih hrest c hc2
    · rw [digitRun_cons rest ha] at h
      simp only [Bool.and_eq_true] at h
      rcases List.mem_cons.mp hc with hc1 | hc2
      · subst hc1; exact toNat_lt_of_pyIsDigit h.1
      · exact ih h.2 c hc2

lemma digitsCore_chars {cs : List Char} (h : digitsCore cs = true) :
    ∀ c ∈ cs, c.toNat < 97 := by
  cases cs with
  | nil => cases h
  | cons a rest =>
    rw [digitsCore] at h
    simp only [Bool.and_eq_true] at h
    intro c hc
    rcases List.mem_cons.mp hc with hc1 | hc2
    · subst hc1; exact toNat_lt_of_pyIsDigit h.1
    · exact digitRun_chars h.2 c hc2

lemma signedDigits_chars {cs : List Char} (h : signedDigits cs = true) :
    ∀ c ∈ cs, c.toNat < 97 := by
  cases cs with
  | nil => cases h
  | cons a rest =>
    rw [signedDigits] at h
    by_cases ha : (a = '+' || a = '-') = true
    · rw [if_pos ha] at h
      intro c hc
      rcases List.mem_cons.mp hc with hc1 | hc2
      · subst hc1
        rcases Bool.or_eq_true_iff.mp ha with h1 | h1 <;>
          simp only [decide_eq_true_eq] at h1 <;> subst h1 <;> decide
      · exact digitsCore_chars h c hc2
    · rw [if_neg ha] at h
      exact digitsCore_chars h

lemma mem_stripChars_or_space {l : List Char} {c : Char} (h : c ∈ l) :
    c ∈ stripChars l ∨ pyIsSpace c = true := by
  have hsplit : l.takeWhile pyIsSpace ++ l.dropWhile pyIsSpace = l :=
    List.takeWhile_append_dropWhile pyIsSpace l
  rw [← hsplit] at h
  rcases List.mem_append.mp h with h1 | h2
  · exact Or.inr (List.mem_takeWhile_imp h1)
  · set m := l.dropWhile pyIsSpace with hm
    have h2r : c ∈ m.reverse := List.mem_reverse.mpr h2
    have hsplit2 : m.reverse.takeWhile pyIsSpace ++ m.reverse.dropWhile pyIsSpace
        = m.reverse := List.takeWhile_append_dropWhile pyIsSpace m.reverse
    rw [← hsplit2] at h2r
    rcases List.mem_append.mp h2r with h3 | h4
    · exact Or.inr (List.mem_takeWhile_imp h3)
    · left
      unfold stripChars
      rw [← hm]
      exact List.mem_reverse.mpr h4

lemma map_eq_self_of_fixed {l : List Char} {f : Char → Char}
    (h : ∀ c ∈ l, f c = c) : l.map f = l := by
  induction l with
  | nil => rfl
  | cons a rest ih =>
    simp only [List.map_cons, h a (List.mem_cons_self a rest)]
    rw [ih fun c hc => h c (List.mem_cons_of_mem a hc)]

/-- A string that `int(...)` accepts contains only whitespace, signs,
digits and underscores, so `str.upper()` leaves it unchanged. -/
lemma pyUpper_of_pyIntLiteral {s : String} (h : pyIntLiteral s = true) :
    pyUpper s = s := by
  unfold pyUpper
  have hfix : ∀ c ∈ s.data, pyUpperChar c = c := by
    intro c hc
    rcases mem_stripChars_or_space hc with h1 | h1
    · exact pyUpperChar_eq_self (signedDigits_chars h c h1)
    · exact pyUpperChar_eq_self (toNat_lt_of_pyIsSpace h1)
  rw [map_eq_self_of_fixed hfix]

lemma pyUpper_append (a b : String) : pyUpper (a ++ b) = pyUpper a ++ pyUpper b := by
  unfold pyUpper
  apply String.ext
  simp [String.data_append]

lemma pyUpper_underscore : pyUpper "_" = "_" := by decide

end StringLemmas

section OrchestratorLemmas

/-- Every branch of the miss path invokes the provider. -/
lemma missPath_providerCalled (cache_key : String) (w : World) :
    (missPath cache_key w).providerCalled = true := by
  unfold missPath
  cases call_apify_api w.provider with
  | none => rfl
  | some api_data =>
    by_cases h : api_data.isEmpty <;> simp [h]

/-- No branch of the miss path answers from the cache. -/
lemma missPath_not_cacheHit (cache_key : String) (w : World) (j : Json) :
    (missPath cache_key w).response ≠ .cacheHit j := by
  unfold missPath
  cases call_apify_api w.provider with
  | none => simp
  | some api_data =>
    by_cases h : api_data.isEmpty <;> simp [h]

/-- A nonempty JSON array is truthy. -/
lemma truthy_arr {items : List Json} (h : items ≠ []) :
    (Json.arr items).truthy = true := by
  cases items with
  | nil => exact absurd rfl h
  | cons a t => simp [Json.truthy]

/-- On a structurally valid request, `get_vehicle_data` reaches the miss
path whenever the cache read yields nothing truthy: either the connection
failed, or the row is absent or holds a falsy value. -/
lemma get_vehicle_data_miss (make model year : String) (w : World)
    (hm : ¬make = "") (hmo : ¬model = "") (hy : ¬year = "")
    (hint : pyIntLiteral year = true)
    (hmiss : w.readConn = .connFail ∨
      (w.readConn = .ok ∧
        truthyOpt (w.store (create_cache_key make model year)) = false)) :
    get_vehicle_data ⟨some make, some model, some year⟩ w =
      .ok (missPath (create_cache_key make model year) w) := by
  rcases hmiss with hread | ⟨hread, hfalsy⟩
  · simp [get_vehicle_data, hm, hmo, hy, hint, check_cache, hread]
  · cases hstore : w.store (create_cache_key make model year) with
    | none => simp [get_vehicle_data, hm, hmo, hy, hint, check_cache, hread, hstore]
    | some d =>
      rw [hstore] at hfalsy
      simp only [truthyOpt] at hfalsy
      simp [get_vehicle_data, hm, hmo, hy, hint, check_cache, hread, hstore, hfalsy]

end OrchestratorLemmas

/-- C3: key derivation is pure and deterministic; for every year literal
accepted by `int(...)` the derived key equals
`UPPER(TRIM(make)) ++ "_" ++ UPPER(TRIM(model)) ++ "_" ++ year` with the
year string kept verbatim (it contains no character changed by
`upper()`), and in particular trimming/case-folding of make and model is
normalized: `create_cache_key "Audi " " a4" "2020" =
create_cache_key "AUDI" "A4" "2020"`. -/
theorem C3_key_derivation (make model year : String)
    (hy : pyIntLiteral year = true) :
    create_cache_key make model year = derive_spec make model year ∧
    create_cache_key "Audi " " a4" "2020" =
      create_cache_key "AUDI" "A4" "2020" := by
  constructor
  · unfold create_cache_key derive_spec
    rw [pyUpper_append, pyUpper_append, pyUpper_append, pyUpper_append,
      pyUpper_underscore, pyUpper_of_pyIntLiteral hy]
  · decide

/-- Witness for C3 at the triples named by the specification. -/
theorem C3_key_derivation_witness :
    pyIntLiteral "2020" = true ∧
    (create_cache_key "Audi " " a4" "2020" =
        derive_spec "Audi " " a4" "2020" ∧
      create_cache_key "Audi " " a4" "2020" =
        create_cache_key "AUDI" "A4" "2020") :=
  ⟨by decide, C3_key_derivation "Audi " " a4" "2020" (by decide)⟩

/-- C5: a request with a missing or empty parameter, or a year that
`int(...)` rejects, is answered with a 400 response; the table is
unchanged and neither the cache store nor the provider is touched. -/
theorem C5_validation_short_circuits (req : Request) (w : World)
    (h : requestValid req = false) :
    (get_vehicle_data req w = .ok ⟨.missingParams, w.store, false, false⟩ ∨
      get_vehicle_data req w = .ok ⟨.invalidYear, w.store, false, false⟩) ∧
    HttpResponse.missingParams.status = 400 ∧
    HttpResponse.invalidYear.status = 400 := by
  refine ⟨?_, rfl, rfl⟩
  obtain ⟨om, omo, oy⟩ := req
  cases om with
  | none => left; rfl
  | some m =>
  cases omo with
  | none => left; rfl
  | some mo =>
  cases oy with
  | none => left; rfl
  | some y =>
  by_cases hm1 : m = ""
  · left; simp [get_vehicle_data, hm1]
  by_cases hmo1 : mo = ""
  · left; simp [get_vehicle_data, hmo1]
  by_cases hy1 : y = ""
  · left; simp [get_vehicle_data, hy1]
  have hint : pyIntLiteral y = false := by
    simp [requestValid, hm1, hmo1, hy1] at h
    exact h
  right
  simp [get_vehicle_data, hm1, hmo1, hy1, hint]

/-- Witness for C5: a year string `int(...)` rejects. -/
theorem C5_validation_short_circuits_witness :
    requestValid ⟨some "AUDI", some "A4", some "not-a-number"⟩ = false ∧
    ((get_vehicle_data ⟨some "AUDI", some "A4", some "not-a-number"⟩
        ⟨.ok, fun _ => none, .ok, .raises⟩ =
        .ok ⟨.missingParams, fun _ => none, false, false⟩ ∨
      get_vehicle_data ⟨some "AUDI", some "A4", some "not-a-number"⟩
        ⟨.ok, fun _ => none, .ok, .raises⟩ =
        .ok ⟨.invalidYear, fun _ => none, false, false⟩) ∧
    HttpResponse.missingParams.status = 400 ∧
    HttpResponse.invalidYear.status = 400) :=
  ⟨by decide,
    C5_validation_short_circuits ⟨some "AUDI", some "A4", some "not-a-number"⟩
      ⟨.ok, fun _ => none, .ok, .raises⟩ (by decide)⟩

/-- C4: when the cache read fails because no database connection could be
established, the request is not failed: it proceeds exactly as on a cache
miss, invoking the provider and returning the provider-path outcome. -/
theorem C4_fail_open_on_read_failure (make model year : String) (w : World)
    (hm : ¬make = "") (hmo : ¬model = "") (hy : ¬year = "")
    (hint : pyIntLiteral year = true)
    (hread : w.readConn = .connFail) :
    get_vehicle_data ⟨some make, some model, some year⟩ w =
      .ok (missPath (create_cache_key make model year) w) ∧
    (missPath (create_cache_key make model year) w).providerCalled = true :=
  ⟨get_vehicle_data_miss make model year w hm hmo hy hint (Or.inl hread),
    missPath_providerCalled _ _⟩

/-- Witness for C4: store unavailable, provider returns one record. -/
theorem C4_fail_open_on_read_failure_witness :
    (¬"AUDI" = "" ∧ ¬"A4" = "" ∧ ¬"2020" = "" ∧ pyIntLiteral "2020" = true ∧
      (World.mk .connFail (fun _ => none) .ok
        (.completes (some ⟨some "ds1"⟩) [.obj [("part", .str "brake-pad")]])).readConn
        = .connFail) ∧
    (get_vehicle_data ⟨some "AUDI", some "A4", some "2020"⟩
        (World.mk .connFail (fun _ => none) .ok
          (.completes (some ⟨some "ds1"⟩) [.obj [("part", .str "brake-pad")]])) =
      .ok (missPath (create_cache_key "AUDI" "A4" "2020")
        (World.mk .connFail (fun _ => none) .ok
          (.completes (some ⟨some "ds1"⟩) [.obj [("part", .str "brake-pad")]]))) ∧
    (missPath (create_cache_key "AUDI" "A4" "2020")
        (World.mk .connFail (fun _ => none) .ok
          (.completes (some ⟨some "ds1"⟩) [.obj [("part", .str "brake-pad")]]))).providerCalled
      = true) :=
  ⟨⟨by decide, by decide, by decide, by decide, rfl⟩,
    C4_fail_open_on_read_failure "AUDI" "A4" "2020" _
      (by decide) (by decide) (by decide) (by decide) rfl⟩

/-- C6: when the miss path is reached and the provider call fails (transport
error or provider-reported error), the response is 503 and the table after
the request is the table before it — no cache write occurs. -/
theorem C6_provider_error_no_write (make model year : String) (w : World)
    (hm : ¬make = "") (hmo : ¬model = "") (hy : ¬year = "")
    (hint : pyIntLiteral year = true)
    (hmiss : w.readConn = .connFail ∨
      (w.readConn = .ok ∧
        truthyOpt (w.store (create_cache_key make model year)) = false))
    (hprov : w.provider = .raises) :
    get_vehicle_data ⟨some make, some model, some year⟩ w =
      .ok ⟨.providerError, w.store, true, true⟩ ∧
    HttpResponse.providerError.status = 503 := by
  refine ⟨?_, rfl⟩
  rw [get_vehicle_data_miss make model year w hm hmo hy hint hmiss]
  simp [missPath, call_apify_api, hprov]

/-- Witness for C6: empty table, provider raises. -/
theorem C6_provider_error_no_write_witness :
    (¬"AUDI" = "" ∧ ¬"A4" = "" ∧ ¬"2020" = "" ∧ pyIntLiteral "2020" = true ∧
      ((World.mk .ok (fun _ => none) .ok .raises).readConn = .connFail ∨
        ((World.mk .ok (fun _ => none) .ok .raises).readConn = .ok ∧
          truthyOpt ((World.mk .ok (fun _ => none) .ok .raises).store
            (create_cache_key "AUDI" "A4" "2020")) = false)) ∧
      (World.mk .ok (fun _ => none) .ok .raises).provider = .raises) ∧
    (get_vehicle_data ⟨some "AUDI", some "A4", some "2020"⟩
        (World.mk .ok (fun _ => none) .ok .raises) =
      .ok ⟨.providerError, (World.mk .ok (fun _ => none) .ok .raises).store,
        true, true⟩ ∧
    HttpResponse.providerError.status = 503) :=
  ⟨⟨by decide, by decide, by decide, by decide, Or.inr ⟨rfl, rfl⟩, rfl⟩,
    C6_provider_error_no_write "AUDI" "A4" "2020" _
      (by decide) (by decide) (by decide) (by decide)
      (Or.inr ⟨rfl, rfl⟩) rfl⟩

/-- C2: a provider success with zero records is answered 404, the table is
not written (it is returned unchanged), and a second identical query
against the unchanged table takes the miss path and invokes the provider
again. -/
theorem C2_empty_result_not_cached (make model year dsid : String)
    (w : World)
    (hm : ¬make = "") (hmo : ¬model = "") (hy : ¬year = "")
    (hint : pyIntLiteral year = true)
    (hread : w.readConn = .connFail ∨ w.readConn = .ok)
    (hkey : truthyOpt (w.store (create_cache_key make model year)) = false)
    (hprov : w.provider = .completes (some ⟨some dsid⟩) [])
    (hdsid : ¬dsid = "") :
    get_vehicle_data ⟨some make, some model, some year⟩ w =
      .ok ⟨.emptyResult, w.store, true, true⟩ ∧
    HttpResponse.emptyResult.status = 404 ∧
    (∀ w2 : World, w2.store = w.store →
      (w2.readConn = .connFail ∨ w2.readConn = .ok) →
      get_vehicle_data ⟨some make, some model, some year⟩ w2 =
        .ok (missPath (create_cache_key make model year) w2) ∧
      (missPath (create_cache_key make model year) w2).providerCalled
        = true) := by
  have hmiss : ∀ w3 : World, w3.store = w.store →
      (w3.readConn = .connFail ∨ w3.readConn = .ok) →
      w3.readConn = .connFail ∨
        (w3.readConn = .ok ∧
          truthyOpt (w3.store (create_cache_key make model year)) = false) := by
    intro w3 hs hr
    rcases hr with hr | hr
    · exact Or.inl hr
    · exact Or.inr ⟨hr, by rw [hs]; exact hkey⟩
  refine ⟨?_, rfl, ?_⟩
  · rw [get_vehicle_data_miss make model year w hm hmo hy hint
      (hmiss w rfl hread)]
    simp [missPath, call_apify_api, hprov, hdsid]
  · intro w2 hs hr
    exact ⟨get_vehicle_data_miss make model year w2 hm hmo hy hint
        (hmiss w2 hs hr),
      missPath_providerCalled _ _⟩

/-- Witness for C2: empty table, provider completes with an empty dataset. -/
theorem C2_empty_result_not_cached_witness :
    (¬"AUDI" = "" ∧ ¬"A4" = "" ∧ ¬"2020" = "" ∧ pyIntLiteral "2020" = true ∧
      ((World.mk .ok (fun _ => none) .ok
          (.completes (some ⟨some "ds1"⟩) [])).readConn = .connFail ∨
        (World.mk .ok (fun _ => none) .ok
          (.completes (some ⟨some "ds1"⟩) [])).readConn = .ok) ∧
      truthyOpt ((World.mk .ok (fun _ => none) .ok
          (.completes (some ⟨some "ds1"⟩) [])).store
        (create_cache_key "AUDI" "A4" "2020")) = false ∧
      (World.mk .ok (fun _ => none) .ok
          (.completes (some ⟨some "ds1"⟩) [])).provider =
        .completes (some ⟨some "ds1"⟩) [] ∧
      ¬"ds1" = "") ∧
    (get_vehicle_data ⟨some "AUDI", some "A4", some "2020"⟩
        (World.mk .ok (fun _ => none) .ok
          (.completes (some ⟨some "ds1"⟩) [])) =
      .ok ⟨.emptyResult,
        (World.mk .ok (fun _ => none) .ok
          (.completes (some ⟨some "ds1"⟩) [])).store, true, true⟩ ∧
    HttpResponse.emptyResult.status = 404 ∧
    (∀ w2 : World,
      w2.store = (World.mk .ok (fun _ => none) .ok
        (.completes (some ⟨some "ds1"⟩) [])).store →
      (w2.readConn = .connFail ∨ w2.readConn = .ok) →
      get_vehicle_data ⟨some "AUDI", some "A4", some "2020"⟩ w2 =
        .ok (missPath (create_cache_key "AUDI" "A4" "2020") w2) ∧
      (missPath (create_cache_key "AUDI" "A4" "2020") w2).providerCalled
        = true)) :=
  ⟨⟨by decide, by decide, by decide, by decide, Or.inr rfl, rfl, rfl,
      by decide⟩,
    C2_empty_result_not_cached "AUDI" "A4" "2020" "ds1" _
      (by decide) (by decide) (by decide) (by decide)
      (Or.inr rfl) rfl rfl (by decide)⟩

/-- C9: the hit decision is Python truthiness of the value read, not row
existence: a row holding any falsy JSON payload (an empty list written by
an external actor, `null`, `false`, `0`, `""`, `{}`) is treated as a miss —
the provider is invoked and the response is never `source=cache`. -/
theorem C9_falsy_row_treated_as_miss (make model year : String) (w : World)
    (d : Json)
    (hm : ¬make = "") (hmo : ¬model = "") (hy : ¬year = "")
    (hint : pyIntLiteral year = true)
    (hread : w.readConn = .ok)
    (hstore : w.store (create_cache_key make model year) = some d)
    (hfalsy : d.truthy = false) :
    get_vehicle_data ⟨some make, some model, some year⟩ w =
      .ok (missPath (create_cache_key make model year) w) ∧
    (missPath (create_cache_key make model year) w).providerCalled = true ∧
    ∀ j, (missPath (create_cache_key make model year) w).response ≠
      .cacheHit j := by
  refine ⟨?_, missPath_providerCalled _ _,
    fun j => missPath_not_cacheHit _ _ j⟩
  apply get_vehicle_data_miss make model year w hm hmo hy hint
  right
  refine ⟨hread, ?_⟩
  rw [hstore]
  simp [truthyOpt, hfalsy]

/-- Witness for C9: the row for the key holds the falsy payload `[]`. -/
theorem C9_falsy_row_treated_as_miss_witness :
    (¬"AUDI" = "" ∧ ¬"A4" = "" ∧ ¬"2020" = "" ∧ pyIntLiteral "2020" = true ∧
      (World.mk .ok (fun _ => some (.arr [])) .ok .raises).readConn = .ok ∧
      (World.mk .ok (fun _ => some (.arr [])) .ok .raises).store
        (create_cache_key "AUDI" "A4" "2020") = some (.arr []) ∧
      (Json.arr []).truthy = false) ∧
    (get_vehicle_data ⟨some "AUDI", some "A4", some "2020"⟩
        (World.mk .ok (fun _ => some (.arr [])) .ok .raises) =
      .ok (missPath (create_cache_key "AUDI" "A4" "2020")
        (World.mk .ok (fun _ => some (.arr [])) .ok .raises)) ∧
    (missPath (create_cache_key "AUDI" "A4" "2020")
        (World.mk .ok (fun _ => some (.arr [])) .ok .raises)).providerCalled
      = true ∧
    ∀ j, (missPath (create_cache_key "AUDI" "A4" "2020")
        (World.mk .ok (fun _ => some (.arr [])) .ok .raises)).response ≠
      .cacheHit j) :=
  ⟨⟨by decide, by decide, by decide, by decide, rfl, rfl, rfl⟩,
    C9_falsy_row_treated_as_miss "AUDI" "A4" "2020" _ (.arr [])
      (by decide) (by decide) (by decide) (by decide) rfl rfl rfl⟩

/-- C1: cache idempotence.  A miss-path fetch that succeeds with a
nonempty item list writes exactly that payload under the derived key
(byte-identical, as the upserted JSON array), and any later request whose
query maps to the same key, while the row still holds that payload,
answers 200 `source=cache` with the identical payload and without calling
the provider. -/
theorem C1_cache_idempotence
    (make model year make2 model2 year2 dsid : String)
    (w w2 : World) (items : List Json)
    (hm : ¬make = "") (hmo : ¬model = "") (hy : ¬year = "")
    (hint : pyIntLiteral year = true)
    (hmiss : w.readConn = .connFail ∨
      (w.readConn = .ok ∧
        truthyOpt (w.store (create_cache_key make model year)) = false))
    (hprov : w.provider = .completes (some ⟨some dsid⟩) items)
    (hdsid : ¬dsid = "") (hitems : items ≠ [])
    (hwrite : w.writeConn = .ok)
    (hm2 : ¬make2 = "") (hmo2 : ¬model2 = "") (hy2 : ¬year2 = "")
    (hint2 : pyIntLiteral year2 = true)
    (hkey2 : create_cache_key make2 model2 year2 =
      create_cache_key make model year)
    (hread2 : w2.readConn = .ok)
    (hstore2 : w2.store (create_cache_key make model year) =
      some (.arr items)) :
    get_vehicle_data ⟨some make, some model, some year⟩ w =
      .ok ⟨.populated items,
        save_to_cache .ok w.store (create_cache_key make model year)
          (.arr items), true, true⟩ ∧
    save_to_cache .ok w.store (create_cache_key make model year) (.arr items)
      (create_cache_key make model year) = some (.arr items) ∧
    get_vehicle_data ⟨some make2, some model2, some year2⟩ w2 =
      .ok ⟨.cacheHit (.arr items), w2.store, false, true⟩ := by
  have hne : items.isEmpty = false := by
    cases items with
    | nil => exact absurd rfl hitems
    | cons a t => rfl
  refine ⟨?_, ?_, ?_⟩
  · rw [get_vehicle_data_miss make model year w hm hmo hy hint hmiss]
    simp [missPath, call_apify_api, hprov, hdsid, hne, hwrite]
  · simp [save_to_cache]
  · simp [get_vehicle_data, hm2, hmo2, hy2, hint2, hkey2, check_cache,
      hread2, hstore2, truthy_arr hitems]

/-- Witness for C1: populate `AUDI_A4_2020`, then resolve
`("Audi ", " a4", "2020")`, which derives the same key, against the
populated row. -/
theorem C1_cache_idempotence_witness :
    (¬"AUDI" = "" ∧ ¬"A4" = "" ∧ ¬"2020" = "" ∧ pyIntLiteral "2020" = true ∧
      ((World.mk .ok (fun _ => none) .ok
          (.completes (some ⟨some "ds1"⟩) [.str "brake-pad"])).readConn
            = .connFail ∨
        ((World.mk .ok (fun _ => none) .ok
          (.completes (some ⟨some "ds1"⟩) [.str "brake-pad"])).readConn = .ok ∧
          truthyOpt ((World.mk .ok (fun _ => none) .ok
            (.completes (some ⟨some "ds1"⟩) [.str "brake-pad"])).store
              (create_cache_key "AUDI" "A4" "2020")) = false)) ∧
      (World.mk .ok (fun _ => none) .ok
          (.completes (some ⟨some "ds1"⟩) [.str "brake-pad"])).provider =
        .completes (some ⟨some "ds1"⟩) [.str "brake-pad"] ∧
      ¬"ds1" = "" ∧ ([Json.str "brake-pad"] ≠ []) ∧
      (World.mk .ok (fun _ => none) .ok
        (.completes (some ⟨some "ds1"⟩) [.str "brake-pad"])).writeConn = .ok ∧
      ¬"Audi " = "" ∧ ¬" a4" = "" ∧ ¬"2020" = "" ∧
      pyIntLiteral "2020" = true ∧
      create_cache_key "Audi " " a4" "2020" =
        create_cache_key "AUDI" "A4" "2020" ∧
      (World.mk .ok (fun _ => some (.arr [.str "brake-pad"])) .ok
        .raises).readConn = .ok ∧
      (World.mk .ok (fun _ => some (.arr [.str "brake-pad"])) .ok
          .raises).store (create_cache_key "AUDI" "A4" "2020") =
        some (.arr [.str "brake-pad"])) ∧
    (get_vehicle_data ⟨some "AUDI", some "A4", some "2020"⟩
        (World.mk .ok (fun _ => none) .ok
          (.completes (some ⟨some "ds1"⟩) [.str "brake-pad"])) =
      .ok ⟨.populated [.str "brake-pad"],
        save_to_cache .ok
          (World.mk .ok (fun _ => none) .ok
            (.completes (some ⟨some "ds1"⟩) [.str "brake-pad"])).store
          (create_cache_key "AUDI" "A4" "2020")
          (.arr [.str "brake-pad"]), true, true⟩ ∧
    save_to_cache .ok
        (World.mk .ok (fun _ => none) .ok
          (.completes (some ⟨some "ds1"⟩) [.str "brake-pad"])).store
        (create_cache_key "AUDI" "A4" "2020") (.arr [.str "brake-pad"])
        (create_cache_key "AUDI" "A4" "2020") =
      some (.arr [.str "brake-pad"]) ∧
    get_vehicle_data ⟨some "Audi ", some " a4", some "2020"⟩
        (World.mk .ok (fun _ => some (.arr [.str "brake-pad"])) .ok
          .raises) =
      .ok ⟨.cacheHit (.arr [.str "brake-pad"]),
        (World.mk .ok (fun _ => some (.arr [.str "brake-pad"])) .ok
          .raises).store, false, true⟩) :=
  ⟨⟨by decide, by decide, by decide, by decide, Or.inr ⟨rfl, rfl⟩, rfl,
      by decide, by simp, rfl, by decide, by decide, by decide, by decide,
      by decide, rfl, rfl⟩,
    C1_cache_idempotence "AUDI" "A4" "2020" "Audi " " a4" "2020" "ds1"
      _ _ [.str "brake-pad"]
      (by decide) (by decide) (by decide) (by decide)
      (Or.inr ⟨rfl, rfl⟩) rfl (by decide) (by simp) rfl
      (by decide) (by decide) (by decide) (by decide) (by decide)
      rfl rfl⟩

/-- C10: a provider call that completes without an exception but whose run
is falsy or lacks a (truthy) default dataset id yields the empty list, so
the request is answered 404 (empty result), not 503 (provider error). -/
theorem C10_silent_run_failure_maps_to_404 (make model year : String)
    (w : World) (run : Option ApifyRun) (items : List Json)
    (hm : ¬make = "") (hmo : ¬model = "") (hy : ¬year = "")
    (hint : pyIntLiteral year = true)
    (hmiss : w.readConn = .connFail ∨
      (w.readConn = .ok ∧
        truthyOpt (w.store (create_cache_key make model year)) = false))
    (hprov : w.provider = .completes run items)
    (hrun : run = none ∨ run = some ⟨none⟩ ∨ run = some ⟨some ""⟩) :
    call_apify_api w.provider = some [] ∧
    get_vehicle_data ⟨some make, some model, some year⟩ w =
      .ok ⟨.emptyResult, w.store, true, true⟩ ∧
    HttpResponse.emptyResult.status = 404 ∧
    (HttpResponse.emptyResult ≠ .providerError ∧
      HttpResponse.providerError.status = 503) := by
  have hcall : call_apify_api w.provider = some [] := by
    rcases hrun with h | h | h <;> subst h <;> simp [call_apify_api, hprov]
  refine ⟨hcall, ?_, rfl, by simp, rfl⟩
  rw [get_vehicle_data_miss make model year w hm hmo hy hint hmiss]
  simp [missPath, hcall]

/-- Witness for C10: the run completes but has no default dataset id. -/
theorem C10_silent_run_failure_maps_to_404_witness :
    (¬"AUDI" = "" ∧ ¬"A4" = "" ∧ ¬"2020" = "" ∧ pyIntLiteral "2020" = true ∧
      ((World.mk .ok (fun _ => none) .ok
          (.completes (some ⟨none⟩) [])).readConn = .connFail ∨
        ((World.mk .ok (fun _ => none) .ok
          (.completes (some ⟨none⟩) [])).readConn = .ok ∧
          truthyOpt ((World.mk .ok (fun _ => none) .ok
            (.completes (some ⟨none⟩) [])).store
              (create_cache_key "AUDI" "A4" "2020")) = false)) ∧
      (World.mk .ok (fun _ => none) .ok
          (.completes (some ⟨none⟩) [])).provider =
        .completes (some ⟨none⟩) [] ∧
      ((some ⟨none⟩ : Option ApifyRun) = none ∨
        (some ⟨none⟩ : Option ApifyRun) = some ⟨none⟩ ∨
        (some ⟨none⟩ : Option ApifyRun) = some ⟨some ""⟩)) ∧
    (call_apify_api (World.mk .ok (fun _ => none) .ok
        (.completes (some ⟨none⟩) [])).provider = some [] ∧
    get_vehicle_data ⟨some "AUDI", some "A4", some "2020"⟩
        (World.mk .ok (fun _ => none) .ok (.completes (some ⟨none⟩) [])) =
      .ok ⟨.emptyResult,
        (World.mk .ok (fun _ => none) .ok
          (.completes (some ⟨none⟩) [])).store, true, true⟩ ∧
    HttpResponse.emptyResult.status = 404 ∧
    (HttpResponse.emptyResult ≠ .providerError ∧
      HttpResponse.providerError.status = 503)) :=
  ⟨⟨by decide, by decide, by decide, by decide, Or.inr ⟨rfl, rfl⟩, rfl,
      Or.inr (Or.inl rfl)⟩,
    C10_silent_run_failure_maps_to_404 "AUDI" "A4" "2020" _
      (some ⟨none⟩) []
      (by decide) (by decide) (by decide) (by decide)
      (Or.inr ⟨rfl, rfl⟩) rfl (Or.inr (Or.inl rfl))⟩

/-- C7 fails as stated: `check_cache` wraps its body in `try`/`finally`
with no `except` clause, so a store read failure that occurs after a
successful connection (for instance `cur.execute` raising on a missing
table) propagates out of `get_vehicle_data` as a raw exception — here a
valid request on such a world evaluates to `Except.error`, not to a tagged
outcome. -/
theorem C7_read_exception_reaches_http :
    get_vehicle_data ⟨some "AUDI", some "A4", some "2020"⟩
      ⟨.queryRaises, fun _ => none, .ok, .raises⟩ = .error () := by
  have h : pyIntLiteral "2020" = true := by decide
  simp [get_vehicle_data, check_cache, h]

/-- C7 (amended): every store or provider failure mode **except a store
read exception after a successful connection** is recovered at the
orchestrator boundary into a tagged outcome: whenever the cache read does
not raise, `get_vehicle_data` returns a tagged response for every request,
every table, every write behaviour and every provider behaviour. -/
theorem C7_recovery_outside_read_exception (req : Request) (w : World)
    (hread : w.readConn ≠ .queryRaises) :
    ∃ r, get_vehicle_data req w = .ok r := by
  obtain ⟨om, omo, oy⟩ := req
  cases om with
  | none => exact ⟨_, rfl⟩
  | some m =>
  cases omo with
  | none => exact ⟨_, rfl⟩
  | some mo =>
  cases oy with
  | none => exact ⟨_, rfl⟩
  | some y =>
  by_cases hm1 : m = ""
  · exact ⟨⟨.missingParams, w.store, false, false⟩,
      by simp [get_vehicle_data, hm1]⟩
  by_cases hmo1 : mo = ""
  · exact ⟨⟨.missingParams, w.store, false, false⟩,
      by simp [get_vehicle_data, hmo1]⟩
  by_cases hy1 : y = ""
  · exact ⟨⟨.missingParams, w.store, false, false⟩,
      by simp [get_vehicle_data, hy1]⟩
  by_cases hint : pyIntLiteral y = true
  case neg =>
    rw [Bool.not_eq_true] at hint
    exact ⟨⟨.invalidYear, w.store, false, false⟩,
      by simp [get_vehicle_data, hm1, hmo1, hy1, hint]⟩
  cases hr : w.readConn with
  | queryRaises => exact absurd hr hread
  | connFail =>
    exact ⟨missPath (create_cache_key m mo y) w,
      by simp [get_vehicle_data, hm1, hmo1, hy1, hint, check_cache, hr]⟩
  | ok =>
    cases hs : w.store (create_cache_key m mo y) with
    | none =>
      exact ⟨missPath (create_cache_key m mo y) w,
        by simp [get_vehicle_data, hm1, hmo1, hy1, hint,
          check_cache, hr, hs]⟩
    | some d =>
      by_cases ht : d.truthy = true
      · exact ⟨⟨.cacheHit d, w.store, false, true⟩,
          by simp [get_vehicle_data, hm1, hmo1, hy1, hint,
            check_cache, hr, hs, ht]⟩
      · rw [Bool.not_eq_true] at ht
        exact ⟨missPath (create_cache_key m mo y) w,
          by simp [get_vehicle_data, hm1, hmo1, hy1, hint,
            check_cache, hr, hs, ht]⟩

/-- Witness for the amended C7: a connection-stage read failure together
with a raising provider still yields a tagged outcome. -/
theorem C7_recovery_outside_read_exception_witness :
    (World.mk .connFail (fun _ => none) .connFail .raises).readConn ≠
      .queryRaises ∧
    ∃ r, get_vehicle_data ⟨some "AUDI", some "A4", some "2020"⟩
      (World.mk .connFail (fun _ => none) .connFail .raises) = .ok r :=
  ⟨by decide,
    C7_recovery_outside_read_exception ⟨some "AUDI", some "A4", some "2020"⟩
      (World.mk .connFail (fun _ => none) .connFail .raises) (by decide)⟩

/-- C8 fails as stated: on underlying store unavailability (connection
failure) `check_cache` returns `None`, the very value it returns for an
absent key — the two conditions are not distinguishable in the function's
result. -/
theorem C8_unavailable_equals_not_found :
    check_cache .connFail (fun _ => none) "AUDI_A4_2020" =
      check_cache .ok (fun _ => none) "AUDI_A4_2020" := rfl

/-- C8 (amended): the cache read never signals an error merely because a
key is absent — an absent key with an available store yields the plain
not-found result `none` — and on store unavailability it yields that same
`none`, not a distinguishable StoreUnavailable signal, so the orchestrator
treats unavailability exactly as a miss. -/
theorem C8_absence_and_unavailability (store : Store) (key : String)
    (habs : store key = none) :
    check_cache .ok store key = .ok none ∧
    check_cache .connFail store key = .ok none ∧
    check_cache .ok store key = check_cache .connFail store key := by
  simp [check_cache, habs]

/-- Witness for the amended C8 at an empty table. -/
theorem C8_absence_and_unavailability_witness :
    ((fun _ => none : Store) "AUDI_A4_2020" = none) ∧
    (check_cache .ok (fun _ => none) "AUDI_A4_2020" = .ok none ∧
    check_cache .connFail (fun _ => none) "AUDI_A4_2020" = .ok none ∧
    check_cache .ok (fun _ => none) "AUDI_A4_2020" =
      check_cache .connFail (fun _ => none) "AUDI_A4_2020") :=
  ⟨rfl, C8_absence_and_unavailability (fun _ => none) "AUDI_A4_2020" rfl⟩

end TecdocApp
